import Mathlib

/-!
Verification model of gdb/common/function-view.h (gdb 8.0.1).

`gdb::function_view<Res (Args...)>` is a non-owning, type-erasing reference
to a callable: a pair of an erased payload (a union of an object address and
a code address) and an invoker function pointer (the trampoline).  We embed
it shallowly: addresses are `Nat` (0 playing the role of the null pointer /
zero-initialised storage), side effects of the referenced callable are made
explicit by threading a `Store` value through every call, and a null invoker
is `none`.
-/

set_option autoImplicit false

namespace Gdb

/-- Embeds `union fv_detail::erased_callable`: one pointer-sized slot that
holds either an object address (member `data`) or a code address (member
`fn`).  Both members alias the same storage word, so the model keeps a
single `word`. -/
structure erased_callable where
  word : Nat
deriving DecidableEq

/-- Reading the union through its object-pointer member (`.data`). -/
def erased_callable.data (e : erased_callable) : Nat := e.word

/-- Reading the union through its function-pointer member (`.fn`). -/
def erased_callable.fn (e : erased_callable) : Nat := e.word

/-- The zero-initialised union, as produced by `m_erased_callable {}` in the
default and `nullptr_t` constructors. -/
def erased_callable.zeroInit : erased_callable := { word := 0 }

/-- Embeds `gdb::function_view<Res (Args...)>`: the pair of the erased
payload `m_erased_callable` and the invoker (trampoline) pointer
`m_invoker`.  A null invoker is `none`.  `Store` is the external memory the
referenced callable lives in and may mutate; the invoker threads it
through, which models the side effects of the real call. -/
structure function_view (Store Args Res : Type) where
  m_erased_callable : erased_callable
  m_invoker : Option (erased_callable → Args → Store → Res × Store)

/-- The default constructor `function_view ()`: zero-initialises both the
payload and the invoker. -/
def function_view.mkDefault (Store Args Res : Type) : function_view Store Args Res :=
  { m_erased_callable := erased_callable.zeroInit, m_invoker := none }

/-- The `function_view (std::nullptr_t)` constructor: identical body to the
default constructor. -/
def function_view.mkNull (Store Args Res : Type) : function_view Store Args Res :=
  { m_erased_callable := erased_callable.zeroInit, m_invoker := none }

/-- `operator= (std::nullptr_t)`: the source assigns `m_invoker = nullptr`
and returns `*this`; it does not touch `m_erased_callable`. -/
def function_view.assignNull {Store Args Res : Type}
    (fv : function_view Store Args Res) : function_view Store Args Res :=
  { m_erased_callable := fv.m_erased_callable, m_invoker := none }

/-- The defaulted copy constructor / copy assignment: a memberwise copy of
the (payload, invoker) pair, never of the referenced callable. -/
def function_view.copy {Store Args Res : Type}
    (fv : function_view Store Args Res) : function_view Store Args Res :=
  { m_erased_callable := fv.m_erased_callable, m_invoker := fv.m_invoker }

/-- `explicit operator bool`: true iff `m_invoker != nullptr`; the payload
is deliberately not consulted because the active union member is unknown. -/
def function_view.toBool {Store Args Res : Type}
    (fv : function_view Store Args Res) : Bool :=
  fv.m_invoker.isSome

/-- `operator () (Args...)`: the source calls
`m_invoker (m_erased_callable, args...)` with no null check; invoking an
empty view is undefined behaviour, modelled by `none`. -/
def function_view.call {Store Args Res : Type} (fv : function_view Store Args Res)
    (a : Args) (st : Store) : Option (Res × Store) :=
  match fv.m_invoker with
  | none => none
  | some inv => some (inv fv.m_erased_callable a st)

/-- The function-object overload of `bind`, reached from the
`function_view (Callable &&)` constructor.  The concrete `Callable` type is
characterised by its state type `CState` and the behaviour `op` of its
`operator()` (which may mutate the object's own state and yields a `Res2`);
the object itself resides at address `addr` in the external store
`Nat → CState`.  `bind` stores `addressof (callable)` in
`m_erased_callable.data` and installs the trampoline that restores
`*static_cast<Callable *> (ecall.data)`, forwards the arguments, writes the
mutated object back, and casts the result to `Res` (`castRes`, the explicit
`(Res)` cast of the source). -/
def function_view.ofObject {CState Args Res2 Res : Type}
    (op : CState → Args → Res2 × CState) (castRes : Res2 → Res) (addr : Nat) :
    function_view (Nat → CState) Args Res :=
  { m_erased_callable := { word := addr },
    m_invoker := some (fun ecall a st =>
      let p := op (st ecall.data) a
      (castRes p.1, fun n => if n = ecall.data then p.2 else st n)) }

/-- The function-pointer overload of `bind`.  Free functions are modelled by
a code table mapping a function's address to its behaviour on an explicit
external `World` (capturing whatever side effects a free function has).
`bind` stores the function's address in `m_erased_callable.fn` (the
`reinterpret_cast<void (*) ()>`), and installs the trampoline that
reinterprets `ecall.fn` back to the original function type, calls it, and
casts the result to `Res`. -/
def function_view.ofFnPtr {World Args Res2 Res : Type}
    (fnTable : Nat → Args → World → Res2 × World) (castRes : Res2 → Res) (addr : Nat) :
    function_view World Args Res :=
  { m_erased_callable := { word := addr },
    m_invoker := some (fun ecall a w =>
      let p := fnTable ecall.fn a w
      (castRes p.1, p.2)) }

/-- `operator== (const function_view &f, std::nullptr_t)`:
`!static_cast<bool> (f)`. -/
def fv_eq_null {S A R : Type} (f : function_view S A R) : Bool := !f.toBool

/-- `operator== (std::nullptr_t, const function_view &f)`:
`!static_cast<bool> (f)`. -/
def null_eq_fv {S A R : Type} (f : function_view S A R) : Bool := !f.toBool

/-- `operator!= (const function_view &f, std::nullptr_t)`:
`static_cast<bool> (f)`. -/
def fv_ne_null {S A R : Type} (f : function_view S A R) : Bool := f.toBool

/-- `operator!= (std::nullptr_t, const function_view &f)`:
`static_cast<bool> (f)`. -/
def null_ne_fv {S A R : Type} (f : function_view S A R) : Bool := f.toBool

/-- A miniature universe of C++ types over which the return-type
compatibility predicate of the header is evaluated. -/
inductive CppType
  | void
  | boolean
  | int32
  | int64
  | objPtr
deriving DecidableEq

/-- `std::is_void`. -/
def is_void : CppType → Bool
  | .void => true
  | _ => false

/-- `std::is_same`. -/
def is_same (a b : CppType) : Bool := a == b

/-- `std::is_convertible`, restricted to the miniature universe: the
arithmetic types (`boolean`, `int32`, `int64`) interconvert, an object
pointer converts to itself and (contextually via `bool`) to `boolean`,
`void` converts only to `void`. -/
def is_convertible : CppType → CppType → Bool
  | .void, .void => true
  | .void, _ => false
  | _, .void => false
  | .objPtr, .objPtr => true
  | .objPtr, .boolean => true
  | .objPtr, _ => false
  | _, .objPtr => false
  | _, _ => true

/-- `gdb::traits::Or`, the variadic disjunction trait of the header:
`Or<> = false_type`, `Or<B1> = B1`,
`Or<B1, B2> = conditional<B1::value, B1, B2>::type`, and
`Or<B1, B2, B3, Bn...> = conditional<B1::value, B1, Or<B2, B3, Bn...>>::type`.
Each trait is modelled by its boolean value and `std::conditional` by
`cond`. -/
def traitsOr : List Bool → Bool
  | [] => false
  | [b1] => b1
  | [b1, b2] => cond b1 b1 b2
  | b1 :: b2 :: b3 :: bn => cond b1 b1 (traitsOr (b2 :: b3 :: bn))

/-- `CompatibleReturnType<From, To>
  = traits::Or<std::is_void<To>, std::is_same<From, To>,
               std::is_convertible<From, To>>`. -/
def CompatibleReturnType (From To : CppType) : Bool :=
  traitsOr [is_void To, is_same From To, is_convertible From To]

/-- Spec-side description of invoking the function object at `addr`
directly, with no view in between: apply its `operator()` to its own state
and write the mutated state back to the object's location. -/
def directObjectCall {CState Args Res : Type} (op : CState → Args → Res × CState)
    (addr : Nat) (st : Nat → CState) (a : Args) : Res × (Nat → CState) :=
  let p := op (st addr) a
  (p.1, fun n => if n = addr then p.2 else st n)

/-- Spec-side description of calling the free function at `addr` directly on
the current world, with no view in between. -/
def directFnCall {World Args Res : Type} (fnTable : Nat → Args → World → Res × World)
    (addr : Nat) (a : Args) (w : World) : Res × World :=
  fnTable addr a w

/-- A program state for frame reasoning: the view itself alongside the
external store the referenced callable lives in. -/
structure ProgState (CState Args Res : Type) where
  view : function_view (Nat → CState) Args Res
  store : Nat → CState

/-- One invocation through `operator()`: the call operator is `const` and
the trampoline receives the payload by value, so the view component is
carried over unchanged and only the external store may change. -/
def invokeStep {CState Args Res : Type} (ps : ProgState CState Args Res) (a : Args) :
    Option (Res × ProgState CState Args Res) :=
  (ps.view.call a ps.store).map (fun p => (p.1, { view := ps.view, store := p.2 }))

/-- `n` successive invocations of the view with argument `a`. -/
def invokeStepN {CState Args Res : Type} :
    Nat → ProgState CState Args Res → Args → Option (ProgState CState Args Res)
  | 0, ps, _ => some ps
  | n + 1, ps, a => (invokeStep ps a).bind (fun rp => invokeStepN n rp.2 a)

/-- The closure of the spec's first concrete scenario: it captures the
threshold `t` (its state) and computes `x > t` without mutating the
capture. -/
def threshOp (t : Int) (x : Int) : Bool × Int := (decide (t < x), t)

/-- Store holding the closure object with captured `t = 5` at address 0. -/
def threshStore : Nat → Int := fun _ => 5

/-- The `function_view<bool (int)>` built from that closure. -/
def threshView : function_view (Nat → Int) Int Bool :=
  function_view.ofObject threshOp id 0

/-- The counting function object of the spec's second concrete scenario:
its `operator()` increments the external counter (its state). -/
def counterOp (n : Nat) (_ : Unit) : Unit × Nat := ((), n + 1)

/-- Store with the counter object at address 0, counter starting at 0. -/
def counterStore : Nat → Nat := fun _ => 0

/-- The `function_view<void ()>` built from the counting object. -/
def counterView : function_view (Nat → Nat) Unit Unit :=
  function_view.ofObject counterOp id 0

/-- A view bound to a function object residing at address 7, used to examine
what null assignment does to an already-bound view. -/
def boundView7 : function_view (Nat → Nat) Unit Unit :=
  function_view.ofObject counterOp id 7

/-- Program state pairing the counter view with its store. -/
def counterProg : ProgState Nat Unit Unit :=
  { view := counterView, store := counterStore }

/-- The program state after three invocations of the counter view. -/
def counterProg3 : ProgState Nat Unit Unit :=
  match invokeStepN 3 counterProg () with
  | some q => q
  | none => counterProg

/-- Helper: a single `invokeStep` carries the view over unchanged. -/
theorem invokeStep_preserves_view {CState Args Res : Type}
    (ps : ProgState CState Args Res) (a : Args) (rp : Res × ProgState CState Args Res)
    (h : invokeStep ps a = some rp) : rp.2.view = ps.view := by
  unfold invokeStep at h
  cases hcall : ps.view.call a ps.store with
  | none => rw [hcall] at h; exact Option.noConfusion h
  | some q =>
    rw [hcall] at h
    have h2 : (q.1, ({ view := ps.view, store := q.2 } : ProgState CState Args Res)) = rp :=
      Option.some.inj h
    have h3 := congrArg Prod.snd h2
    rw [← h3]

/-- Claim C1: for every free function `f` matching the declared signature
`Res (Args...)`, a view constructed from `f` through the function-pointer
`bind` and then invoked yields exactly the result and the side effects of
calling `f` directly. -/
theorem c1_fnptr_view_refines_direct_call
    (World Args Res : Type) (fnTable : Nat → Args → World → Res × World)
    (addr : Nat) (a : Args) (w : World) :
    (function_view.ofFnPtr fnTable id addr).call a w
      = some (directFnCall fnTable addr a w) := rfl

/-- Claim C2: a view over a function object aliases the object itself:
invoking a view built from `c` mutates `c`'s own state in the store and
returns what a direct call of `c` returns; a second, separately constructed
view of the same `c` then observes the cumulative state; and a copied view
is the same (payload, invoker) pair, so invoking the copy reaches the same
original callable as the original view. -/
theorem c2_object_view_reference_semantics
    (CState Args Res : Type) (op : CState → Args → Res × CState) (addr : Nat)
    (store : Nat → CState) (a b : Args) (st2 : Nat → CState) :
    ((function_view.ofObject op id addr).call a store
        = some (directObjectCall op addr store a))
    ∧ ((function_view.ofObject op id addr).call b (directObjectCall op addr store a).2
        = some (directObjectCall op addr (directObjectCall op addr store a).2 b))
    ∧ ((function_view.ofObject op id addr).copy = function_view.ofObject op id addr)
    ∧ ((function_view.ofObject op id addr).copy.call a st2
        = (function_view.ofObject op id addr).call a st2) :=
  ⟨rfl, rfl, rfl, rfl⟩

/-- Claim C3: `CompatibleReturnType<From, To>` holds exactly when `To` is
void, or `From` is `To`, or `From` converts to `To` — it equals the
disjunction of the three predicates — and `traits::Or` short-circuits on a
true first disjunct: a void declared result accepts every callable result
whatever the later disjuncts evaluate to. -/
theorem c3_compatible_return_type_is_disjunction :
    (∀ (From To : CppType),
        CompatibleReturnType From To
          = (is_void To || is_same From To || is_convertible From To))
    ∧ (∀ (b2 b3 : Bool), traitsOr [is_void CppType.void, b2, b3] = true) := by
  constructor
  · intro From To
    cases From <;> cases To <;> rfl
  · intro b2 b3
    rfl

/-- Claim C4 counterexample: after assigning the null marker to a view bound
to the object at address 7, the payload is not reset — it still holds the
old address 7 and differs from the zero-initialised payload of a
null-constructed view.  So null assignment does not reassign the whole
(payload, trampoline) pair. -/
theorem c4_null_assign_payload_counterexample :
    boundView7.assignNull.m_erased_callable
        ≠ (function_view.mkNull (Nat → Nat) Unit Unit).m_erased_callable
    ∧ boundView7.assignNull.m_erased_callable = boundView7.m_erased_callable := by
  constructor
  · decide
  · rfl

/-- Claim C4 (amended): binding a callable sets payload and trampoline
together, but assigning the null marker resets only the trampoline and
leaves the payload holding its previous contents; the view nevertheless
reports empty afterwards, because emptiness is decided by the trampoline
alone. -/
theorem c4_mutation_sets_components
    (S A R CState Args Res2 Res : Type) (v : function_view S A R)
    (op : CState → Args → Res2 × CState) (castRes : Res2 → Res) (addr : Nat) :
    ((function_view.ofObject op castRes addr).m_erased_callable
        = { word := addr })
    ∧ ((function_view.ofObject op castRes addr).m_invoker.isSome = true)
    ∧ (v.assignNull.m_invoker = none)
    ∧ (v.assignNull.m_erased_callable = v.m_erased_callable)
    ∧ (v.assignNull.toBool = false) :=
  ⟨rfl, rfl, rfl, rfl, rfl⟩

/-- Claim C5: a default-constructed view and a nullptr-constructed view
report empty; assigning the null marker makes any view report empty,
whatever its prior state; and a view constructed from an accepted callable
(function object or function pointer) reports non-empty. -/
theorem c5_emptiness
    (S A R : Type) (v : function_view S A R)
    (CState Args Res2 Res World : Type)
    (op : CState → Args → Res2 × CState) (castRes : Res2 → Res) (addr : Nat)
    (fnTable : Nat → Args → World → Res2 × World) (addr2 : Nat) :
    ((function_view.mkDefault S A R).toBool = false)
    ∧ ((function_view.mkNull S A R).toBool = false)
    ∧ (v.assignNull.toBool = false)
    ∧ ((function_view.ofObject op castRes addr).toBool = true)
    ∧ ((function_view.ofFnPtr fnTable castRes addr2).toBool = true) :=
  ⟨rfl, rfl, rfl, rfl, rfl⟩

/-- Claim C6: the four null comparisons agree with the truthiness query:
both equalities hold exactly when the view is empty, both inequalities hold
exactly when it is non-empty, and each inequality is the negation of the
corresponding equality. -/
theorem c6_null_comparisons (S A R : Type) (f : function_view S A R) :
    (fv_eq_null f = !f.toBool)
    ∧ (null_eq_fv f = !f.toBool)
    ∧ (fv_ne_null f = f.toBool)
    ∧ (null_ne_fv f = f.toBool)
    ∧ (fv_ne_null f = !fv_eq_null f)
    ∧ (null_ne_fv f = !null_eq_fv f) := by
  refine ⟨rfl, rfl, rfl, rfl, ?_, ?_⟩
  · simp [fv_ne_null, fv_eq_null]
  · simp [null_ne_fv, null_eq_fv]

/-- Claim C7: the `bool (int)` view over the closure capturing the threshold
`t = 5` returns `false` when invoked with 3, `true` with 7 and `false`
with 5. -/
theorem c7_threshold_scenario :
    ((threshView.call 3 threshStore).map Prod.fst = some false)
    ∧ ((threshView.call 7 threshStore).map Prod.fst = some true)
    ∧ ((threshView.call 5 threshStore).map Prod.fst = some false) := by
  refine ⟨?_, ?_, ?_⟩ <;> decide

/-- Claim C8: through the `void ()` view over the counting object, each
invocation increments the external counter by exactly one, and three
invocations starting from counter 0 leave the counter at 3. -/
theorem c8_counter_scenario (st : Nat → Nat) :
    ((counterView.call () st).map (fun p => p.2 0) = some (st 0 + 1))
    ∧ (((counterView.call () counterStore).bind (fun p =>
          (counterView.call () p.2).bind (fun q =>
            (counterView.call () q.2).map (fun r => r.2 0)))) = some 3) :=
  ⟨rfl, rfl⟩

/-- Claim C9: emptiness is decided solely by the invoker: null assignment
modifies only `m_invoker` and leaves the payload unchanged, yet the view
reports empty afterwards; and any view whose invoker is null reports empty
whatever its payload holds. -/
theorem c9_empty_from_invoker_only
    (S A R : Type) (v : function_view S A R) (p : erased_callable) :
    (v.assignNull.m_erased_callable = v.m_erased_callable)
    ∧ (v.assignNull.m_invoker = none)
    ∧ (v.assignNull.toBool = false)
    ∧ ((function_view.mk p none : function_view S A R).toBool = false) :=
  ⟨rfl, rfl, rfl, rfl⟩

/-- Claim C10: invocation never mutates the view: after any number of
invocations the (payload, trampoline) pair is exactly what it was before,
so the view stays bound to the same callable; only the external store
changes. -/
theorem c10_invoke_preserves_view
    (CState Args Res : Type) (n : Nat) (ps ps2 : ProgState CState Args Res) (a : Args)
    (h : invokeStepN n ps a = some ps2) : ps2.view = ps.view := by
  induction n generalizing ps with
  | zero =>
    have hp : ps = ps2 := Option.some.inj h
    rw [← hp]
  | succ n ih =>
    simp only [invokeStepN] at h
    cases hstep : invokeStep ps a with
    | none => rw [hstep] at h; exact Option.noConfusion h
    | some rp =>
      rw [hstep] at h
      have h2 : ps2.view = rp.2.view := ih rp.2 h
      rw [h2, invokeStep_preserves_view ps a rp hstep]

/-- Witness for claim C10: three invocations of the counter view preserve
the view component of the program state. -/
theorem c10_invoke_preserves_view_witness :
    invokeStepN 3 counterProg () = some counterProg3
    ∧ counterProg3.view = counterProg.view :=
  ⟨rfl, c10_invoke_preserves_view Nat Unit Unit 3 counterProg counterProg3 () rfl⟩

end Gdb
